import Mathlib

/-!
Verification of the Jarvis voice-assistant repository against its
natural-language specification.

The Python sources are shallowly embedded: pure fragments become Lean
functions, external effects (file system, subprocesses, HTTP, psutil,
speech recognition, the LLM agent) become explicit oracle parameters
describing the outcome of each external call, and a Python exception that
escapes a function is an `Except.error`.  Timestamps and latencies are
modelled as rationals.  JSON documents already parsed by the `json`
standard library are modelled by the inductive `Json` below; the textual
serialisation performed by `json.dumps` / `json.loads` (a standard-library
round trip) is abstracted away, so a file holding a JSON array is modelled
as the list of its parsed elements.
-/

/-- Parsed JSON value, as handed to the Python code by `json.loads`.
Numbers are modelled as integers (every number this code writes is an
integer id or omitted); `obj` keeps fields in insertion order. -/
inductive Json where
  | null
  | bool (b : Bool)
  | num (n : Int)
  | str (s : String)
  | arr (elems : List Json)
  | obj (fields : List (String × Json))

/-- An event record as consumed by the dashboard (`jarvis_desktop.py`,
`_handle_event`): the four fields the handler reads, extracted with
Python `dict.get` defaults (`text`/`message` default to `""`,
`latency_ms` to `None`).  The `ts`/`session` fields of the log payload
are never read by the dashboard and are not modelled. -/
structure Event where
  kind : String
  text : String := ""
  message : String := ""
  latency_ms : Option ℚ := none
deriving DecidableEq

/-- Python truthiness of the value bound to `latency_ms` in
`_handle_event` (`if latency_ms:`): `None` and `0` are falsy. -/
def latencyTruthy : Option ℚ → Bool
  | none => false
  | some v => v != 0

/-- Dashboard view state mutated by `_handle_event` (fields of
`JarvisDashboard` it touches).  `chat` is the conversation feed as the
list of `(tag, inserted text)` pairs appended by `_append_chat`. -/
structure ViewState where
  convo_count : Nat
  last_latency : Option ℚ
  chat : List (String × String)
  status_label : String
  agent_status : String
  agent_detail : String
deriving DecidableEq

/-- View state produced by `JarvisDashboard.__init__` (the fields
modelled here). -/
def initViewState : ViewState :=
  { convo_count := 0
    last_latency := none
    chat := []
    status_label := "Idle / ready"
    agent_status := "Connecting to model..."
    agent_detail := "" }

/-- Embedding of `JarvisDashboard._handle_event` (jarvis_desktop.py,
lines 496-518). -/
def handleEvent (st : ViewState) (e : Event) : ViewState :=
  if e.kind = "user" then
    { st with chat := st.chat ++ [("user", "You: " ++ e.text ++ "\n")] }
  else if e.kind = "assistant" then
    let st1 := { st with
      chat := st.chat ++ [("jarvis", "Jarvis: " ++ e.text ++ "\n\n")]
      convo_count := st.convo_count + 1 }
    if latencyTruthy e.latency_ms then
      { st1 with last_latency := (e.latency_ms.map (fun v => v / 1000)) }
    else st1
  else if e.kind = "status" then
    { st with agent_status := e.message, status_label := e.message }
  else if e.kind = "error" then
    let shown := if e.message ≠ "" then e.message else e.text
    let st1 := { st with
      chat := st.chat ++ [("meta", "Error: " ++ shown ++ "\n")]
      agent_status := "LLM error" }
    if e.text ≠ "" then { st1 with agent_detail := e.text } else st1
  else st

/-- Embedding of one polling tick of `JarvisDashboard._watch_events`
(jarvis_desktop.py, lines 475-494).  The log file's content is the list
of its complete lines, `pos` is the stored read offset `log_pos`
(measured in lines: every write appends one newline-terminated record),
and `parse` is the outcome of `json.loads` composed with the event-field
extraction, `none` when the line is not valid JSON.  If the file does not
exist (`ex = false`) nothing is read and the offset is unchanged;
otherwise each new line is parsed independently, a line that fails to
parse is skipped (`except Exception: continue`), and the offset advances
to end of file (`f.tell()` after `readlines`). -/
def watchEventsTick (parse : String → Option Event) (ex : Bool)
    (content : List String) (st : ViewState) (pos : Nat) : ViewState × Nat :=
  if ex then
    let lines := content.drop pos
    (lines.foldl
      (fun s line =>
        match parse line with
        | some e => handleEvent s e
        | none => s)
      st,
     content.length)
  else (st, pos)

/-- Rounding performed by Python `format(x, '.0f')`: round half to even. -/
def roundHalfEven (q : ℚ) : ℤ :=
  let f : ℤ := ⌊q⌋
  let r : ℚ := q - f
  if r < 1/2 then f
  else if 1/2 < r then f + 1
  else if f % 2 = 0 then f else f + 1

/-- Embedding of the latency line of `JarvisDashboard._tick_vitals`
(jarvis_desktop.py, lines 447-450): the displayed text is
`f"Last latency: {last_latency * 1000:.0f} ms"` when a latency is
stored, `"Last latency: --"` otherwise. -/
def displayLatency (st : ViewState) : String :=
  match st.last_latency with
  | some l => "Last latency: " ++ toString (roundHalfEven (l * 1000)) ++ " ms"
  | none => "Last latency: --"

/-- Folding a list of events only ever adds the number of
`assistant`-kind events to `convo_count`. -/
theorem convoCount_handleEvent (st : ViewState) (e : Event) :
    (handleEvent st e).convo_count =
      st.convo_count + (if e.kind = "assistant" then 1 else 0) := by
  unfold handleEvent
  split_ifs <;> simp_all

theorem convoCount_foldl (st : ViewState) (evs : List Event) :
    (evs.foldl handleEvent st).convo_count =
      st.convo_count + evs.countP (fun e => e.kind = "assistant") := by
  induction evs generalizing st with
  | nil => simp
  | cons e evs ih =>
      simp only [List.foldl_cons, List.countP_cons, ih, convoCount_handleEvent]
      by_cases h : e.kind = "assistant"
      · simp [h]
        omega
      · simp [h]

/-- C4: for every sequence of valid Events folded by the dashboard's
event handler `_handle_event`, starting from the freshly initialised
view state, the resulting `convo_count` (the displayed exchange count)
equals the number of processed Events whose kind is `"assistant"`; and
from any intermediate state the count is monotonically non-decreasing
under further processing, so it never decreases across successive polls
of `_watch_events`. -/
theorem exchange_count_counts_assistant_events :
    (∀ evs : List Event,
      ((evs.foldl handleEvent initViewState).convo_count =
        evs.countP (fun e => e.kind = "assistant"))) ∧
    (∀ (st : ViewState) (evs : List Event),
      st.convo_count ≤ (evs.foldl handleEvent st).convo_count) := by
  constructor
  · intro evs
    simp [convoCount_foldl, initViewState]
  · intro st evs
    simp [convoCount_foldl]

/-- Assistant event with a given text and latency, as logged by the
voice loop and read back by the dashboard. -/
def assistantEv (txt : String) (l : Option ℚ) : Event :=
  { kind := "assistant", text := txt, latency_ms := l }

/-- C6: processing an `assistant` Event carrying `latency_ms = 842`
stores `842 / 1000` seconds in `last_latency`, and the vitals ticker then
displays `"Last latency: 842 ms"`: the conversion chain `latency_ms /
1000` followed by `last_latency * 1000` rounded to an integer returns the
original millisecond value. -/
theorem latency_842_displays_842_ms :
    ∀ (st : ViewState) (txt : String),
      ((handleEvent st (assistantEv txt (some 842))).last_latency
          = some (842 / 1000)) ∧
      displayLatency (handleEvent st (assistantEv txt (some 842)))
          = "Last latency: 842 ms" := by
  intro st txt
  constructor
  · simp [handleEvent, assistantEv, latencyTruthy]
  · have h : roundHalfEven (842 : ℚ) = 842 := by
      norm_num [roundHalfEven]
    simp [handleEvent, assistantEv, latencyTruthy, displayLatency, h]
    decide

/-- C10: an `assistant` Event whose `latency_ms` is absent (`None`) or
zero (the falsy values an `Option ℚ` can model) leaves `last_latency`
unchanged, while the chat transcript is still appended to and the
exchange count still incremented: the whole resulting state is the old
one with exactly those two updates. -/
theorem falsy_latency_frame_condition :
    ∀ (st : ViewState) (txt : String) (l : Option ℚ),
      (l = none ∨ l = some 0) →
      handleEvent st { kind := "assistant", text := txt, latency_ms := l } =
        { st with
          chat := st.chat ++ [("jarvis", "Jarvis: " ++ txt ++ "\n\n")]
          convo_count := st.convo_count + 1 } := by
  intro st txt l hl
  rcases hl with h | h <;> subst h <;> simp [handleEvent, latencyTruthy]

/-- Closed witness for `falsy_latency_frame_condition` at a concrete
state and event. -/
theorem falsy_latency_frame_condition_witness :
    handleEvent initViewState
        { kind := "assistant", text := "hello", latency_ms := none } =
      { initViewState with
        chat := [("jarvis", "Jarvis: hello\n\n")]
        convo_count := 1 } := by
  have h := falsy_latency_frame_condition initViewState "hello" none (Or.inl rfl)
  simpa [initViewState] using h

/-- C2: a malformed line (one `parse` rejects) interleaved anywhere in
the newly appended lines of a polling tick does not affect any other
line: the resulting view state is the fold of the handler over exactly
the parsed events of the well-formed lines before and after it, and the
stored read offset still advances to end of file, past the malformed
line.  `pre` is the already-consumed prefix of the file (the stored
offset points just past it). -/
theorem malformed_line_skipped :
    ∀ (parse : String → Option Event) (st : ViewState)
      (pre before after : List String) (bad : String),
      parse bad = none →
      watchEventsTick parse true (pre ++ before ++ [bad] ++ after) st
          pre.length =
        (((before ++ after).filterMap parse).foldl handleEvent st,
         (pre ++ before ++ [bad] ++ after).length) := by
  intro parse st pre before after bad hbad
  unfold watchEventsTick
  simp only [if_pos trivial]
  have hdrop :
      (pre ++ before ++ [bad] ++ after).drop pre.length =
        before ++ [bad] ++ after := by
    have : pre ++ before ++ [bad] ++ after = pre ++ (before ++ [bad] ++ after) := by
      simp [List.append_assoc]
    rw [this, List.drop_left]
  rw [hdrop]
  have hfold :
      ∀ (ls : List String) (s : ViewState),
        ls.foldl
          (fun s line =>
            match parse line with
            | some e => handleEvent s e
            | none => s) s =
        (ls.filterMap parse).foldl handleEvent s := by
    intro ls
    induction ls with
    | nil => intro s; rfl
    | cons x xs ih =>
        intro s
        simp only [List.foldl_cons, List.filterMap_cons]
        cases hx : parse x with
        | none => simp [ih]
        | some e => simp [ih]
  rw [hfold]
  congr 1
  simp [hbad]

/-- Closed witness for `malformed_line_skipped`: a concrete parser, a
valid line on each side of a malformed one, and an already-consumed
prefix line.  Both valid events are applied and the offset lands at end
of file (4 lines). -/
theorem malformed_line_skipped_witness :
    (let parse : String → Option Event := fun s =>
      if s = "u" then some { kind := "user", text := "hi" }
      else if s = "a" then some { kind := "assistant", text := "yo" }
      else none
    watchEventsTick parse true ["old", "u", "not json", "a"] initViewState 1 =
      (((["u", "a"]).filterMap parse).foldl handleEvent initViewState, 4)) := by
  exact malformed_line_skipped _ initViewState ["old"] ["u"] ["a"] "not json" rfl

/-! ## Voice loop state machine (main.py, `write`, lines 120-189) -/

/-- Tests whether `needle` occurs as a contiguous sublist of the second
argument: the Python substring operator `needle in hay`. -/
def subListOf (needle : List Char) : List Char → Bool
  | [] => needle.isEmpty
  | c :: t => needle.isPrefixOf (c :: t) || subListOf needle t

/-- ASCII lowercasing of a character list (Python `str.lower`; the
transcripts produced by the recognizer are ASCII). -/
def lowerChars (cs : List Char) : List Char := cs.map Char.toLower

/-- Wake-word test of main.py line 136:
`TRIGGER_WORD.lower() in transcript.lower()` with `TRIGGER_WORD =
"jarvis"`. -/
def containsTrigger (transcript : String) : Bool :=
  subListOf (lowerChars "jarvis".data) (lowerChars transcript.data)

/-- In-memory state of the voice loop (`conversation_mode`,
`last_interaction_time` in `write`).  `conversation_mode = false` is the
WAKE_WORD_WAIT state, `true` is CONVERSATION. -/
structure VoiceState where
  conversation_mode : Bool
  last_interaction_time : Option ℚ
deriving DecidableEq

/-- Outcome of one `recognizer.listen` + `recognize_google` attempt:
`listenTimeout` is `sr.WaitTimeoutError`, `unintelligible` is
`sr.UnknownValueError`, `transcript` a successful recognition. -/
inductive Heard where
  | listenTimeout
  | unintelligible
  | transcript (t : String)

/-- Outcome of `executor.invoke` on a command. -/
inductive AgentResult where
  | ok (content : String)
  | err (detail : String)

/-- Status event as appended by `log_event("status", {"message": m})`
(the `ts`/`session` fields are not modelled, see `Event`). -/
def statusEv (m : String) : Event := { kind := "status", message := m }

/-- User event as appended by `log_event("user", {"text": command})`. -/
def userEv (t : String) : Event := { kind := "user", text := t }

/-- Error event appended on agent failure:
`log_event("error", {"message": "Agent failure", "detail": str(e)})`;
the `detail` payload field is not among the fields the dashboard reads
and is not modelled. -/
def agentErrorEv : Event := { kind := "error", message := "Agent failure" }

/-- Embedding of one iteration of the `while True` body of `write`
(main.py, lines 128-186), including its exception handlers.  The
`time.time()` calls of the iteration are passed as explicit instants:
`tWake` (set into `last_interaction_time` on wake-word detection),
`tStart`/`tDone` (around `executor.invoke`, giving
`latency_ms = (tDone - tStart) * 1000`), `tAfterSpeak` (set into
`last_interaction_time` after a successful reply is spoken) and `tCheck`
(read by every `time.time() - last_interaction_time >
CONVERSATION_TIMEOUT` test, with `CONVERSATION_TIMEOUT = 30`).  The
result is the successor state and the list of events appended to the log
during the iteration.  Note that the `sr.UnknownValueError` handler
(line 182) only logs a warning: it never touches `conversation_mode`. -/
def voiceStep (st : VoiceState) (h : Heard) (agentRes : AgentResult)
    (tWake tStart tDone tAfterSpeak tCheck : ℚ) : VoiceState × List Event :=
  if st.conversation_mode = false then
    match h with
    | .transcript t =>
        if containsTrigger t then
          ({ conversation_mode := true, last_interaction_time := some tWake },
           [statusEv "Wake word detected"])
        else (st, [])
    | .listenTimeout => (st, [])
    | .unintelligible => (st, [])
  else
    match h with
    | .transcript t =>
        match agentRes with
        | .ok content =>
            let evs := [userEv t,
                        assistantEv content (some ((tDone - tStart) * 1000))]
            let st1 : VoiceState :=
              { st with last_interaction_time := some tAfterSpeak }
            if tCheck - tAfterSpeak > 30 then
              ({ st1 with conversation_mode := false }, evs)
            else (st1, evs)
        | .err _ =>
            let evs := [userEv t, agentErrorEv]
            match st.last_interaction_time with
            | some lt =>
                if tCheck - lt > 30 then
                  ({ st with conversation_mode := false }, evs)
                else (st, evs)
            | none => (st, evs)
    | .listenTimeout =>
        match st.last_interaction_time with
        | some lt =>
            if tCheck - lt > 30 then
              ({ st with conversation_mode := false }, [])
            else (st, [])
        | none => (st, [])
    | .unintelligible => (st, [])

/-- C5: in WAKE_WORD_WAIT, a transcript that case-insensitively contains
`"jarvis"` as a substring switches the machine to CONVERSATION, sets
`last_interaction_time` to the current time and appends the
`"Wake word detected"` status Event; a transcript without the trigger
leaves the state unchanged and appends nothing. -/
theorem wake_word_substring_triggers_conversation :
    ∀ (st : VoiceState) (t : String) (r : AgentResult)
      (tWake tS tD tA tC : ℚ),
      st.conversation_mode = false →
      (containsTrigger t = true →
        voiceStep st (.transcript t) r tWake tS tD tA tC =
          ({ conversation_mode := true, last_interaction_time := some tWake },
           [statusEv "Wake word detected"])) ∧
      (containsTrigger t = false →
        voiceStep st (.transcript t) r tWake tS tD tA tC = (st, [])) := by
  intro st t r tWake tS tD tA tC hmode
  constructor <;> intro h <;> simp [voiceStep, hmode, h]

/-- Closed witness for `wake_word_substring_triggers_conversation` on
the spec's example transcript `"hey there jarvis can you help"`. -/
theorem wake_word_substring_triggers_conversation_witness :
    voiceStep ⟨false, none⟩
        (.transcript "hey there jarvis can you help") (.err "x") 5 0 0 0 0 =
      (⟨true, some 5⟩, [statusEv "Wake word detected"]) := by
  exact (wake_word_substring_triggers_conversation
    ⟨false, none⟩ "hey there jarvis can you help" (.err "x") 5 0 0 0 0 rfl).1
    (by decide)

/-- Amended C3: in CONVERSATION, on an audio-capture timeout
(`sr.WaitTimeoutError`) the machine returns to WAKE_WORD_WAIT exactly
when more than 30 seconds have elapsed since `last_interaction_time`,
and stays in CONVERSATION otherwise; but on unintelligible audio
(`sr.UnknownValueError`) the handler performs no inactivity check at
all, so the machine stays in CONVERSATION regardless of the elapsed
time. -/
theorem conversation_timeout_only_on_listen_timeout :
    ∀ (st : VoiceState) (t0 : ℚ) (r : AgentResult)
      (tWake tS tD tA tCheck : ℚ),
      st.conversation_mode = true →
      st.last_interaction_time = some t0 →
      (tCheck - t0 > 30 →
        voiceStep st .listenTimeout r tWake tS tD tA tCheck =
          ({ st with conversation_mode := false }, [])) ∧
      (¬(tCheck - t0 > 30) →
        voiceStep st .listenTimeout r tWake tS tD tA tCheck = (st, [])) ∧
      voiceStep st .unintelligible r tWake tS tD tA tCheck = (st, []) := by
  intro st t0 r tWake tS tD tA tCheck hmode hlast
  refine ⟨fun h => ?_, fun h => ?_, ?_⟩
  · simp [voiceStep, hmode, hlast, h]
  · simp [voiceStep, hmode, hlast, h]
  · simp [voiceStep, hmode, hlast]

/-- Closed witness for `conversation_timeout_only_on_listen_timeout`:
31 seconds of inactivity and a listen timeout send the machine back to
WAKE_WORD_WAIT. -/
theorem conversation_timeout_only_on_listen_timeout_witness :
    voiceStep ⟨true, some 0⟩ .listenTimeout (.err "e") 0 0 0 0 31 =
      (⟨false, some 0⟩, []) := by
  have h := (conversation_timeout_only_on_listen_timeout
    ⟨true, some 0⟩ 0 (.err "e") 0 0 0 0 31 rfl rfl).1 (by norm_num)
  simpa using h

/-- Counterexample to C3 as stated: with 31 seconds elapsed since the
last interaction (beyond the 30-second threshold), unintelligible audio
leaves the machine in CONVERSATION — it does not transition back to
WAKE_WORD_WAIT as the claim requires. -/
theorem conversation_unintelligible_ignores_timeout :
    (31 : ℚ) - 0 > 30 ∧
    voiceStep ⟨true, some 0⟩ .unintelligible (.err "e") 0 0 0 0 31 =
      (⟨true, some 0⟩, []) := ⟨by norm_num, rfl⟩

/-! ## Dashboard network speed test (jarvis_desktop.py, lines 661-685) -/

/-- Fields of `JarvisDashboard` touched by the speed-test paths:
`speed_running` and the `speed_text` StringVar. -/
structure SpeedState where
  speed_running : Bool
  speed_text : String
deriving DecidableEq

/-- Speed-test state after `__init__`. -/
def initSpeedState : SpeedState :=
  { speed_running := false, speed_text := "Speed: idle" }

/-- Embedding of `_run_speedtest` (lines 661-669): result is the new
state and whether a measurement thread was spawned.  `avail` is whether
the `speedtest` module imported successfully. -/
def runSpeedtest (avail : Bool) (st : SpeedState) : SpeedState × Bool :=
  if st.speed_running then (st, false)
  else if !avail then
    ({ st with speed_text := "Speed: install speedtest-cli" }, false)
  else
    ({ speed_running := true, speed_text := "Speed: running..." }, true)

/-- Embedding of `_set_speed_result` (lines 683-685), invoked on the UI
thread when the in-progress measurement delivers its result text. -/
def setSpeedResult (text : String) (_st : SpeedState) : SpeedState :=
  { speed_running := false, speed_text := text }

/-- Transitions of the speed-test fields: either a click on
"Run speed test" (`_run_speedtest`) or the delivery of a result
(`_set_speed_result`).  These are the only two places the source
assigns `speed_running` or `speed_text`. -/
inductive SpeedStep : SpeedState → SpeedState → Prop
  | run (avail : Bool) (st : SpeedState) : SpeedStep st (runSpeedtest avail st).1
  | result (t : String) (st : SpeedState) : SpeedStep st (setSpeedResult t st)

/-- C8: at most one speed test runs at a time.  (1) Whenever
`speed_running` is set, `_run_speedtest` returns immediately: the state
is unchanged and no second measurement is spawned.  (2) The property
"whenever `speed_running` is set, the shown text is `Speed: running...`"
is an invariant of both transitions (so a rejected second click leaves
the running indication shown), and (3) holds initially.  (4)
`_run_speedtest` never clears `speed_running`: only the delivery of the
in-progress result (`_set_speed_result`) does. -/
theorem speedtest_mutual_exclusion :
    (∀ (st : SpeedState) (avail : Bool),
      st.speed_running = true → runSpeedtest avail st = (st, false)) ∧
    (∀ st st', SpeedStep st st' →
      (st.speed_running = true → st.speed_text = "Speed: running...") →
      (st'.speed_running = true → st'.speed_text = "Speed: running...")) ∧
    (initSpeedState.speed_running = true →
      initSpeedState.speed_text = "Speed: running...") ∧
    (∀ (st : SpeedState) (avail : Bool),
      st.speed_running = true →
        (runSpeedtest avail st).1.speed_running = true) := by
  refine ⟨?_, ?_, ?_, ?_⟩
  · intro st avail h
    simp [runSpeedtest, h]
  · intro st st' hstep hinv
    cases hstep with
    | run avail st =>
        by_cases h : st.speed_running
        · simp [runSpeedtest, h, hinv h]
        · simp only [Bool.not_eq_true] at h
          cases havail : avail <;> simp [runSpeedtest, h, havail]
    | result t st => simp [setSpeedResult]
  · intro h
    simp [initSpeedState] at h
  · intro st avail h
    simp [runSpeedtest, h]

/-- Closed witness for `speedtest_mutual_exclusion`: clicking while a
test is running changes nothing and spawns nothing. -/
theorem speedtest_mutual_exclusion_witness :
    runSpeedtest true ⟨true, "Speed: running..."⟩ =
      (⟨true, "Speed: running..."⟩, false) :=
  speedtest_mutual_exclusion.1 ⟨true, "Speed: running..."⟩ true rfl

/-! ## To-do store (src/tools/todo.py)

The store file `slash_tasks.json` is modelled as `Option (List Json)`:
`none` when the file does not exist or does not parse (both make
`_load_tasks` return `[]`), `some ts` when it holds a JSON array with
elements `ts`.  The `json.dumps`/`json.loads` text round trip of the
standard library is abstracted away.  A write failure of
`TODO_PATH.write_text` (which `_save_tasks` does not guard) is the
`writeOk = false` oracle outcome. -/

/-- Python `str.strip()` on ASCII whitespace. -/
def pyStrip (s : String) : String :=
  ⟨((s.data.dropWhile Char.isWhitespace).reverse.dropWhile
      Char.isWhitespace).reverse⟩

/-- Digit tail of a Python integer literal: `digit (["_"] digit)*`
continued after a first digit already consumed into `acc`. -/
def pyDigits (acc : Nat) : List Char → Option Nat
  | [] => some acc
  | '_' :: c :: cs =>
      if c.isDigit then pyDigits (10 * acc + (c.toNat - 48)) cs else none
  | c :: cs =>
      if c.isDigit then pyDigits (10 * acc + (c.toNat - 48)) cs else none

/-- Python `int(s)` on an already-stripped string (`None` models the
`ValueError` caught by `todo_complete`): optional sign, then ASCII
digits with optional single underscores between digits. -/
def parsePyInt (s : String) : Option Int :=
  match s.data with
  | '+' :: c :: cs =>
      if c.isDigit then (pyDigits (c.toNat - 48) cs).map Int.ofNat else none
  | '-' :: c :: cs =>
      if c.isDigit then (pyDigits (c.toNat - 48) cs).map (fun n => -(n : Int))
      else none
  | c :: cs =>
      if c.isDigit then (pyDigits (c.toNat - 48) cs).map Int.ofNat else none
  | [] => none

mutual
/-- Python `repr` of a parsed-JSON value, used for elements nested
inside containers (quote-escaping inside strings is not modelled: none
of the values this program writes contain quotes). -/
def pyRepr : Json → String
  | .null => "None"
  | .bool b => if b then "True" else "False"
  | .num n => toString n
  | .str s => "\x27" ++ s ++ "\x27"
  | .arr xs => "[" ++ String.intercalate ", " (pyReprList xs) ++ "]"
  | .obj fs => "\x7b" ++ String.intercalate ", " (pyReprFields fs) ++ "\x7d"

/-- Representations of the elements of a JSON array. -/
def pyReprList : List Json → List String
  | [] => []
  | x :: xs => pyRepr x :: pyReprList xs

/-- Representations of the fields of a JSON object. -/
def pyReprFields : List (String × Json) → List String
  | [] => []
  | (k, v) :: fs => ("\x27" ++ k ++ "\x27: " ++ pyRepr v) :: pyReprFields fs
end

/-- Python `str()` of a value fetched by `dict.get`, as interpolated by
an f-string (`None` prints when the key was missing). -/
def pyStr : Option Json → String
  | none => "None"
  | some .null => "None"
  | some (.bool b) => if b then "True" else "False"
  | some (.num n) => toString n
  | some (.str s) => s
  | some (.arr xs) => pyRepr (.arr xs)
  | some (.obj fs) => pyRepr (.obj fs)

/-- Python truthiness of a value fetched by `dict.get`. -/
def jsonTruthy : Option Json → Bool
  | none => false
  | some .null => false
  | some (.bool b) => b
  | some (.num n) => n != 0
  | some (.str s) => s != ""
  | some (.arr xs) => !xs.isEmpty
  | some (.obj fs) => !fs.isEmpty

/-- Python `t.get(k) == n` for an integer `n`: a missing key gives
`None == n`, which is `False`; a boolean compares as its integer value;
non-numeric values compare unequal. -/
def pyEqInt (v : Option Json) (n : Int) : Bool :=
  match v with
  | some (.num m) => m == n
  | some (.bool b) => (if b then (1 : Int) else 0) == n
  | _ => false

/-- Python `t.get(k)` where `t` may be any value: raises
`AttributeError` unless `t` is a dict. -/
def pyDictGet : Json → String → Except String (Option Json)
  | .obj fs, k => .ok (fs.lookup k)
  | _, _ => .error "AttributeError: object has no attribute get"

/-- Python dict assignment `t[k] = v`: replaces the value of an existing
key in place, otherwise appends the key at the end. -/
def setField : List (String × Json) → String → Json → List (String × Json)
  | [], k, v => [(k, v)]
  | (k', v') :: fs, k, v =>
      if k' = k then (k', v) :: fs else (k', v') :: setField fs k v

/-- Embedding of `_load_tasks` (todo.py, lines 11-17): a missing or
unparseable file yields `[]`. -/
def loadTasks : Option (List Json) → List Json
  | none => []
  | some ts => ts

/-- Embedding of `todo_add` (todo.py, lines 24-34).  `task_id` is the
oracle value of `int(time.time() * 1000)`; the result is the returned
string, the new file state, and whether the file was written. -/
def todo_add (file : Option (List Json)) (task : String) (task_id : Int)
    (writeOk : Bool) : Except String (String × Option (List Json) × Bool) :=
  let text := pyStrip task
  if text = "" then .ok ("Please provide a task description.", file, false)
  else
    let tasks := loadTasks file
    let tasks' := tasks ++
      [Json.obj [("id", .num task_id), ("task", .str text),
                 ("done", .bool false)]]
    if writeOk then
      .ok ("Added task [" ++ toString task_id ++ "]: " ++ text,
           some tasks', true)
    else .error "OSError: failed to write to-do file"

/-- One line of the `todo_list` loop body (todo.py, lines 44-46). -/
def renderTask (t : Json) : Except String String := do
  let mark := if jsonTruthy (← pyDictGet t "done") then "✅" else "⬜"
  let idv ← pyDictGet t "id"
  let taskv ← pyDictGet t "task"
  pure (mark ++ " [" ++ pyStr idv ++ "] " ++ pyStr taskv)

/-- The `lines` list built by the `todo_list` loop; the first entry that
raises aborts the whole call, as in Python. -/
def renderAll : List Json → Except String (List String)
  | [] => .ok []
  | t :: ts => do
      let line ← renderTask t
      let rest ← renderAll ts
      pure (line :: rest)

/-- Embedding of `todo_list` (todo.py, lines 37-47). -/
def todo_list (file : Option (List Json)) : Except String String :=
  let tasks := loadTasks file
  if tasks.isEmpty then .ok "No tasks yet."
  else do
    let lines ← renderAll tasks
    pure (String.intercalate "\n" lines)

/-- The `for t in tasks` search of `todo_complete` (todo.py, lines
59-64): marks the first task whose `id` equals the target (in place,
preserving the rest), returns `none` when no task matches, and raises
`AttributeError` when it reaches a non-dict entry. -/
def markFirst (target : Int) : List Json → Except String (Option (List Json))
  | [] => .ok none
  | .obj fs :: ts =>
      if pyEqInt (fs.lookup "id") target then
        .ok (some (Json.obj (setField fs "done" (.bool true)) :: ts))
      else
        (markFirst target ts).map (fun r =>
          r.map (fun ts' => Json.obj fs :: ts'))
  | _ :: _ => .error "AttributeError: object has no attribute get"

/-- Embedding of `todo_complete` (todo.py, lines 50-68): result is the
returned string, the file state after the call, and whether the file was
written. -/
def todo_complete (file : Option (List Json)) (task_id : String)
    (writeOk : Bool) : Except String (String × Option (List Json) × Bool) :=
  match parsePyInt (pyStrip task_id) with
  | none => .ok ("Provide a numeric task id.", file, false)
  | some target =>
    match markFirst target (loadTasks file) with
    | .error e => .error e
    | .ok none => .ok ("Task id " ++ task_id ++ " not found.", file, false)
    | .ok (some ts') =>
        if writeOk then
          .ok ("Task " ++ task_id ++ " marked complete.", some ts', true)
        else .error "OSError: failed to write to-do file"

/-- Record appended by `todo_add` for stripped text `text` and generated
id `tid`. -/
def newTaskJson (tid : Int) (text : String) : Json :=
  Json.obj [("id", .num tid), ("task", .str text), ("done", .bool false)]

/-- The same record after `todo_complete` marked it done. -/
def doneTaskJson (tid : Int) (text : String) : Json :=
  Json.obj [("id", .num tid), ("task", .str text), ("done", .bool true)]

theorem exceptBind_ok {α β : Type} (a : α) (f : α → Except String β) :
    (Except.ok a : Except String α) >>= f = f a := rfl

theorem exceptBind_error {α β : Type} (e : String) (f : α → Except String β) :
    (Except.error e : Except String α) >>= f = Except.error e := rfl

theorem renderTask_obj (fs : List (String × Json)) :
    renderTask (Json.obj fs) =
      .ok ((if jsonTruthy (fs.lookup "done") then "✅" else "⬜") ++ " [" ++
        pyStr (fs.lookup "id") ++ "] " ++ pyStr (fs.lookup "task")) := rfl

theorem renderAll_objs (store : List Json)
    (h : ∀ x ∈ store, ∃ fs, x = Json.obj fs) :
    ∃ rs, renderAll store = .ok rs := by
  induction store with
  | nil => exact ⟨[], rfl⟩
  | cons x xs ih =>
      obtain ⟨fs, rfl⟩ := h x (by simp)
      obtain ⟨rs, hrs⟩ := ih (fun y hy => h y (by simp [hy]))
      refine ⟨((if jsonTruthy (fs.lookup "done") then "✅" else "⬜") ++ " [" ++
        pyStr (fs.lookup "id") ++ "] " ++ pyStr (fs.lookup "task")) :: rs, ?_⟩
      simp [renderAll, renderTask_obj, hrs, exceptBind_ok]

theorem renderAll_append_single (t : Json) (s : String)
    (ht : renderTask t = .ok s) :
    ∀ (store : List Json) (rs : List String), renderAll store = .ok rs →
      renderAll (store ++ [t]) = .ok (rs ++ [s]) := by
  intro store
  induction store with
  | nil =>
      intro rs hs
      simp [renderAll] at hs
      subst hs
      simp [renderAll, ht, exceptBind_ok]
  | cons x xs ih =>
      intro rs hs
      simp only [renderAll, List.cons_append] at hs ⊢
      cases hx : renderTask x with
      | error e => simp [hx, exceptBind_error] at hs
      | ok lx =>
          cases hxs : renderAll xs with
          | error e => simp [hx, hxs, exceptBind_ok, exceptBind_error] at hs
          | ok rxs =>
              simp [hx, hxs, exceptBind_ok] at hs
              subst hs
              simp [hx, ih rxs hxs, exceptBind_ok]

theorem markFirst_append (tid : Int) (fs' : List (String × Json))
    (hmatch : pyEqInt (fs'.lookup "id") tid = true) :
    ∀ store : List Json,
      (∀ x ∈ store, ∃ fs, x = Json.obj fs ∧
        pyEqInt (fs.lookup "id") tid = false) →
      markFirst tid (store ++ [Json.obj fs']) =
        .ok (some (store ++ [Json.obj (setField fs' "done" (.bool true))])) := by
  intro store
  induction store with
  | nil =>
      intro _
      simp [markFirst, hmatch]
  | cons x xs ih =>
      intro h
      obtain ⟨fs, rfl, hne⟩ := h x (by simp)
      have ih' := ih (fun y hy => h y (by simp [hy]))
      simp [markFirst, hne, ih', Except.map]

/-- Amended C7: the to-do store round-trips through the file for every
task string that is non-empty after stripping whitespace, provided the
freshly generated id does not collide with a stored task's id and the
stored records are JSON objects (as every record written by `todo_add`
is): `todo_add` appends the record with `done = false`; reloading fresh
and listing shows its `⬜` line after the lines of the prior records;
`todo_complete` on its id rewrites the file with `done = true`; and a
fresh reload and listing then shows its `✅` line. -/
theorem todo_store_roundtrip :
    ∀ (store : List Json) (task : String) (tid : Int),
      pyStrip task ≠ "" →
      parsePyInt (pyStrip (toString tid)) = some tid →
      (∀ x ∈ store, ∃ fs, x = Json.obj fs ∧
        pyEqInt (fs.lookup "id") tid = false) →
      ∃ rs,
        renderAll store = .ok rs ∧
        todo_add (some store) task tid true =
          .ok ("Added task [" ++ toString tid ++ "]: " ++ pyStrip task,
               some (store ++ [newTaskJson tid (pyStrip task)]), true) ∧
        todo_list (some (store ++ [newTaskJson tid (pyStrip task)])) =
          .ok (String.intercalate "\n"
            (rs ++ ["⬜ [" ++ toString tid ++ "] " ++ pyStrip task])) ∧
        todo_complete (some (store ++ [newTaskJson tid (pyStrip task)]))
            (toString tid) true =
          .ok ("Task " ++ toString tid ++ " marked complete.",
               some (store ++ [doneTaskJson tid (pyStrip task)]), true) ∧
        todo_list (some (store ++ [doneTaskJson tid (pyStrip task)])) =
          .ok (String.intercalate "\n"
            (rs ++ ["✅ [" ++ toString tid ++ "] " ++ pyStrip task])) := by
  intro store task tid htask hparse hstore
  obtain ⟨rs, hrs⟩ := renderAll_objs store (fun x hx => ⟨(hstore x hx).choose,
    (hstore x hx).choose_spec.1⟩)
  refine ⟨rs, hrs, ?_, ?_, ?_, ?_⟩
  · simp [todo_add, htask, loadTasks, newTaskJson]
  · have hline : renderTask (newTaskJson tid (pyStrip task)) =
        .ok ("⬜ [" ++ toString tid ++ "] " ++ pyStrip task) := by
      simp [newTaskJson, renderTask_obj, jsonTruthy, pyStr, List.lookup]
    have := renderAll_append_single _ _ hline store rs hrs
    simp [todo_list, loadTasks, this, exceptBind_ok]
  · have hmark := markFirst_append tid
      [("id", .num tid), ("task", .str (pyStrip task)), ("done", .bool false)]
      (by simp [pyEqInt, List.lookup]) store hstore
    simp [todo_complete, hparse, loadTasks, newTaskJson, hmark, setField,
      doneTaskJson]
  · have hline : renderTask (doneTaskJson tid (pyStrip task)) =
        .ok ("✅ [" ++ toString tid ++ "] " ++ pyStrip task) := by
      simp [doneTaskJson, renderTask_obj, jsonTruthy, pyStr, List.lookup]
    have := renderAll_append_single _ _ hline store rs hrs
    simp [todo_list, loadTasks, this, exceptBind_ok]

/-- Closed witness for `todo_store_roundtrip` on an empty store and the
task "buy milk" with a millisecond-epoch id. -/
theorem todo_store_roundtrip_witness :
    todo_add (some []) "buy milk" 1700000000000 true =
      .ok ("Added task [1700000000000]: buy milk",
           some [newTaskJson 1700000000000 "buy milk"], true) ∧
    todo_list (some [newTaskJson 1700000000000 "buy milk"]) =
      .ok "⬜ [1700000000000] buy milk" ∧
    todo_complete (some [newTaskJson 1700000000000 "buy milk"])
        "1700000000000" true =
      .ok ("Task 1700000000000 marked complete.",
           some [doneTaskJson 1700000000000 "buy milk"], true) ∧
    todo_list (some [doneTaskJson 1700000000000 "buy milk"]) =
      .ok "✅ [1700000000000] buy milk" := by
  obtain ⟨rs, hrs, h1, h2, h3, h4⟩ := todo_store_roundtrip [] "buy milk"
    1700000000000 (by decide) (by decide) (by simp)
  have hrsnil : rs = [] := by simpa [renderAll] using hrs.symm
  subst hrsnil
  refine ⟨?_, ?_, ?_, ?_⟩
  · simpa using h1
  · simpa using h2
  · simpa using h3
  · simpa using h4

/-- Counterexample to C7 as stated: the one-character string `" "` is a
non-empty task string, yet `todo_add` rejects it (Python strips it to
the empty string) and the store still lists no tasks — there is no
"added task" to show. -/
theorem todo_add_blank_rejected :
    (" " : String) ≠ "" ∧
    todo_add (some []) " " 1 true =
      .ok ("Please provide a task description.", some [], false) ∧
    todo_list (some []) = .ok "No tasks yet." :=
  ⟨by decide, rfl, rfl⟩

/-- C9 (amended): `todo_complete` is atomic on error: for every store
content, a `task_id` that does not parse as a Python integer yields the
descriptive string `"Provide a numeric task id."` with the file
unwritten; a parsed id that matches no task — the search having
traversed dict records — yields `"Task id ... not found."` with the file
unwritten; the file is rewritten exactly when a matching task was found
and marked done. -/
theorem todo_complete_atomic_on_error :
    ∀ (file : Option (List Json)) (task_id : String) (w : Bool),
      (parsePyInt (pyStrip task_id) = none →
        todo_complete file task_id w =
          .ok ("Provide a numeric task id.", file, false)) ∧
      (∀ n, parsePyInt (pyStrip task_id) = some n →
        markFirst n (loadTasks file) = .ok none →
        todo_complete file task_id w =
          .ok ("Task id " ++ task_id ++ " not found.", file, false)) ∧
      (∀ n ts', parsePyInt (pyStrip task_id) = some n →
        markFirst n (loadTasks file) = .ok (some ts') → w = true →
        todo_complete file task_id w =
          .ok ("Task " ++ task_id ++ " marked complete.", some ts', true)) := by
  intro file task_id w
  refine ⟨fun h => ?_, fun n h hm => ?_, fun n ts' h hm hw => ?_⟩
  · simp [todo_complete, h]
  · simp [todo_complete, h, hm]
  · simp [todo_complete, h, hm, hw]

/-- Closed witness for `todo_complete_atomic_on_error`: a non-numeric id
is rejected with the store untouched. -/
theorem todo_complete_atomic_on_error_witness :
    todo_complete (some [newTaskJson 3 "x"]) "abc" true =
      .ok ("Provide a numeric task id.", some [newTaskJson 3 "x"], false) :=
  (todo_complete_atomic_on_error (some [newTaskJson 3 "x"]) "abc" true).1
    (by decide)

/-- Counterexample to C9 as stated: on the store content `[5]` (a JSON
array holding a bare number, which `_load_tasks` happily returns) and
the well-formed id `"7"`, `todo_complete` neither returns an error
string nor leaves quietly: `t.get("id")` raises `AttributeError`, which
propagates to the caller. -/
theorem todo_complete_raises_on_non_dict_store :
    todo_complete (some [Json.num 5]) "7" true =
      .error "AttributeError: object has no attribute get" := rfl

/-! ## Tool registry (src/tools/system_utils.py, src/tools/bambu_status.py,
src/tools/system_insights.py)

Each tool is embedded with oracle parameters giving the outcomes of its
external calls (keyboard events, subprocesses, HTTP fetch, psutil); an
`Except.error` result is a Python exception escaping the tool. -/

/-- Python `str.lower()` (ASCII). -/
def pyLower (s : String) : String := ⟨lowerChars s.data⟩

/-- Outcome fields of a completed `subprocess.run(..., capture_output=
True, text=True)`. -/
structure RunResult where
  returncode : Int
  stdout : String
  stderr : String

/-- Embedding of `toggle_system_mute` (system_utils.py, lines 18-31):
the whole body is wrapped in `try`/`except`, so every outcome of the two
`keybd_event` calls yields a returned string. -/
def toggle_system_mute (keybd : Except String Unit) : String :=
  match keybd with
  | .ok _ => "Toggled system mute."
  | .error e => "Error toggling mute: " ++ e

/-- The `app_map` dict of `open_app` (system_utils.py, lines 40-49);
`pf`/`pf86` are `os.environ.get("ProgramFiles", ...)` with their
defaults already applied.  The `powershell` entry reproduces the
source's raw string, whose `\\v1.0\\` stays a double backslash. -/
def appMap (pf pf86 : String) : List (String × String) :=
  [("notepad", "C:\\Windows\\system32\\notepad.exe"),
   ("calculator", "C:\\Windows\\system32\\calc.exe"),
   ("calc", "C:\\Windows\\system32\\calc.exe"),
   ("cmd", "C:\\Windows\\system32\\cmd.exe"),
   ("powershell",
    "C:\\Windows\\system32\\WindowsPowerShell\\\\v1.0\\\\powershell.exe"),
   ("explorer", "C:\\Windows\\explorer.exe"),
   ("chrome", pf ++ "\\Google\\Chrome\\Application\\chrome.exe"),
   ("edge", pf86 ++ "\\Microsoft\\Edge\\Application\\msedge.exe")]

/-- Embedding of `open_app` (system_utils.py, lines 34-60):
`targetExists` is `Path(target).exists()`, `popen` the direct
`subprocess.Popen([target])`, `popenShell` the `start`-fallback Popen.
The whole launch logic is inside `try`/`except`, so every outcome yields
a returned string. -/
def open_app (app_name pf pf86 : String) (targetExists : String → Bool)
    (popen popenShell : Except String Unit) : String :=
  let name := pyLower (pyStrip app_name)
  match (appMap pf pf86).lookup name with
  | some t =>
      if !t.isEmpty && targetExists t then
        match popen with
        | .ok _ => "Launching " ++ name ++ "."
        | .error e => "Error opening " ++ app_name ++ ": " ++ e
      else
        match popenShell with
        | .ok _ => "Requested launch: " ++ app_name ++ "."
        | .error e => "Error opening " ++ app_name ++ ": " ++ e
  | none =>
      match popenShell with
      | .ok _ => "Requested launch: " ++ app_name ++ "."
      | .error e => "Error opening " ++ app_name ++ ": " ++ e

/-- Python `s.rstrip("\n")`. -/
def rstripNewlines (s : String) : String :=
  ⟨(s.data.reverse.dropWhile (· = '\n')).reverse⟩

/-- Embedding of `read_clipboard` (system_utils.py, lines 63-73): `ps`
is the outcome of `_run_powershell("Get-Clipboard")`. -/
def read_clipboard (ps : Except String RunResult) : String :=
  match ps with
  | .error e => "Error reading clipboard: " ++ e
  | .ok r =>
      if r.returncode != 0 then "Clipboard read failed: " ++ pyStrip r.stderr
      else
        let text := rstripNewlines r.stdout
        if text != "" then text else "(clipboard empty)"

/-- Embedding of `write_clipboard` (system_utils.py, lines 76-86); the
`text` argument only builds the PowerShell command whose outcome is
`ps`. -/
def write_clipboard (_text : String) (ps : Except String RunResult) :
    String :=
  match ps with
  | .error e => "Error writing clipboard: " ++ e
  | .ok r =>
      if r.returncode != 0 then "Clipboard write failed: " ++ pyStrip r.stderr
      else "Copied to clipboard."

/-- One file met by the `os.walk` of `find_file`: its name, full path,
and the outcome of `path.stat().st_mtime` (`none` when `stat` raised,
which the source catches and replaces by mtime `0`). -/
structure FoundFile where
  fname : String
  path : String
  statMtime : Option ℚ

/-- Embedding of `find_file` (system_utils.py, lines 98-123): `walk` is
the concatenated `os.walk` listing over the candidate directories
(`os.walk` itself swallows directory errors, and the `stat` call is the
only guarded operation). -/
def find_file (query : String) (walk : List FoundFile) : String :=
  let needle := pyLower (pyStrip query)
  if needle = "" then "Provide a file name or part of it."
  else
    let found := (walk.filter (fun f =>
        subListOf needle.data (pyLower f.fname).data)).map
      (fun f => (f.statMtime.getD 0, f.path))
    if found.isEmpty then "No matches for \x27" ++ query ++ "\x27."
    else
      let sorted := found.mergeSort (fun a b => decide (b.1 ≤ a.1))
      "Found:\n" ++ String.intercalate "\n"
        ((sorted.take 10).map (fun m => "- " ++ m.2))

/-- Embedding of `list_recent_downloads` (system_utils.py, lines
126-148): `iterResult` is the outcome of `downloads.iterdir()` (which
can raise, e.g. `PermissionError`, unguarded), each entry carrying the
file name and the outcome of its guarded `stat` (`none` = raised, the
entry is skipped). -/
def list_recent_downloads (dirExists : Bool)
    (iterResult : Except String (List (String × Option ℚ))) :
    Except String String :=
  if !dirExists then .ok "Downloads folder not found."
  else
    match iterResult with
    | .error e => .error e
    | .ok entries =>
        let items := entries.filterMap (fun p => p.2.map (fun m => (m, p.1)))
        if items.isEmpty then .ok "No items in Downloads."
        else
          let sorted := items.mergeSort (fun a b => decide (b.1 ≤ a.1))
          .ok ("Recent Downloads:\n" ++ String.intercalate "\n"
            ((sorted.take 10).map (fun m => "- " ++ m.2)))

/-- Python `str()` of a `Json` value (not wrapped in `Option`). -/
def pyStrJ (j : Json) : String := pyStr (some j)

/-- Python `d.get(k, default)`: raises `AttributeError` unless `d` is a
dict (in particular when a JSON `null`, Python `None`, is reached). -/
def pyGetD : Json → String → Json → Except String Json
  | .obj fs, k, d => .ok ((fs.lookup k).getD d)
  | _, _, _ => .error "AttributeError: object has no attribute get"

/-- Python `value is not None` for the result of a single-argument
`dict.get`: a stored JSON `null` is Python `None` too. -/
def isNotNone : Option Json → Bool
  | none => false
  | some .null => false
  | some _ => true

/-- Embedding of `bambu_printer_status` (bambu_status.py, lines 22-52):
`envIp`/`envCode` are `os.getenv("BAMBU_IP"/"BAMBU_ACCESS_CODE", "")`,
`fetch` the outcome of `_fetch_status` (`requests.get` + `json()`),
which is the only guarded operation. -/
def bambu_printer_status (printer_ip access_code envIp envCode : String)
    (fetch : Except String Json) : Except String String :=
  let ip := if pyStrip printer_ip ≠ "" then pyStrip printer_ip
            else pyStrip envIp
  let _code := if pyStrip access_code ≠ "" then pyStrip access_code
               else pyStrip envCode
  if ip = "" then .ok "Set printer_ip or env BAMBU_IP."
  else
    match fetch with
    | .error e => .ok ("Failed to reach printer at " ++ ip ++ ": " ++ e)
    | .ok data => do
        let printObj ← pyGetD data "print" (Json.obj [])
        let job ← pyGetD printObj "file" (Json.str "unknown")
        let state ← pyGetD printObj "state" (Json.str "unknown")
        let progress ← pyGetD printObj "progress" (Json.num 0)
        let remain ← pyGetD printObj "remaining_time" (Json.num 0)
        let temps ← pyGetD data "temperature" (Json.obj [])
        let bedObj ← pyGetD temps "bed" (Json.obj [])
        let bed ← pyDictGet bedObj "current"
        let nozObj ← pyGetD temps "nozzle" (Json.obj [])
        let noz ← pyDictGet nozObj "current"
        let parts := ["Job: " ++ pyStrJ job, "State: " ++ pyStrJ state,
          "Progress: " ++ pyStrJ progress ++ "%",
          "Time remaining: " ++ pyStrJ remain ++ " min"]
        let parts := parts ++
          (if isNotNone bed then ["Bed: " ++ pyStr bed ++ "°C"] else [])
        let parts := parts ++
          (if isNotNone noz then ["Nozzle: " ++ pyStr noz ++ "°C"] else [])
        pure (String.intercalate " | " parts)

/-- External-world outcomes consumed by `system_insights` and its
helpers (system_insights.py): psutil availability and samples, the
`nvidia-smi` and `netsh` subprocesses, `psutil.net_if_addrs()`, the
battery sensor, and the optional speed test. -/
structure InsightsWorld where
  psutilAvail : Bool
  cpuLoad : ℚ
  sensorsAttrAvail : Bool
  temps : List (String × List ℚ)
  gpuRun : Except String RunResult
  netshRun : Except String RunResult
  netIfAddrs : List (String × List (Nat × String))
  battAttrAvail : Bool
  battery : Except String (Option (ℚ × Bool))
  speedtestAvail : Bool
  speed : Except String (ℚ × ℚ × ℚ)

/-- Python `format(x, '.0f')`. -/
def fmt0f (q : ℚ) : String := toString (roundHalfEven q)

/-- Python `format(x, '.1f')` for the non-negative speeds printed here. -/
def fmt1f (q : ℚ) : String :=
  let n := roundHalfEven (q * 10)
  toString (n / 10) ++ "." ++ toString (n % 10).natAbs

/-- Embedding of `_cpu_info` (system_insights.py, lines 24-36); note the
`if cpu_temp:` truthiness test, under which a sensor reading of exactly
`0.0` is dropped. -/
def cpuInfo (w : InsightsWorld) : String :=
  if !w.psutilAvail then "CPU: install psutil"
  else
    let temps := if w.sensorsAttrAvail then w.temps else []
    let cpu_temp := ["coretemp", "cpu-thermal", "cpu_thermal"].findSome?
      (fun k =>
        match temps.lookup k with
        | some (t :: _) => some t
        | _ => none)
    match cpu_temp with
    | some t =>
        if t != 0 then "CPU: " ++ fmt0f w.cpuLoad ++ "% @ " ++ fmt0f t ++ "°C"
        else "CPU: " ++ fmt0f w.cpuLoad ++ "%"
    | none => "CPU: " ++ fmt0f w.cpuLoad ++ "%"

/-- Embedding of `_gpu_info` (system_insights.py, lines 39-55): the
`subprocess.run` outcome is unguarded, so its exception (`nvidia-smi`
absent) propagates.  Python `splitlines` is modelled by splitting on
`"\n"`. -/
def gpuInfo (w : InsightsWorld) : Except String String :=
  match w.gpuRun with
  | .error e => .error e
  | .ok r =>
      if r.returncode != 0 then .ok "GPU: n/a"
      else
        let line := if pyStrip r.stdout ≠ "" then
            ((pyStrip r.stdout).splitOn "\n").headD ""
          else ""
        if line = "" then .ok "GPU: n/a"
        else
          match (line.splitOn ",").map pyStrip with
          | name :: util :: temp :: _ =>
              .ok ("GPU: " ++ name ++ " " ++ util ++ "% @ " ++ temp ++ "°C")
          | _ => .ok "GPU: n/a"

/-- Python `line.split(":", 1)[1]`: raises `IndexError` when the line
holds no colon. -/
def splitColonTail (line : String) : Except String String :=
  match line.splitOn ":" with
  | [] => .error "IndexError: list index out of range"
  | [_] => .error "IndexError: list index out of range"
  | _ :: rest => .ok (String.intercalate ":" rest)

/-- One iteration of the SSID/Signal scan of `_wifi_info`
(system_insights.py, lines 62-67). -/
def wifiLineFold (acc : String × String) (line : String) :
    Except String (String × String) := do
  let ssid ← if subListOf "SSID".data line.data &&
      !(subListOf "BSSID".data line.data) then
      (splitColonTail line).map pyStrip
    else pure acc.1
  let signal ← if subListOf "Signal".data line.data then
      (splitColonTail line).map pyStrip
    else pure acc.2
  pure (ssid, signal)

/-- Embedding of `_primary_ip` (system_insights.py, lines 74-88): first
non-loopback IPv4 (`family == 2`) of a Wi-Fi-named interface, else of
any interface, else `None`. -/
def primaryIp (w : InsightsWorld) : Option String :=
  if !w.psutilAvail then none
  else
    let pick := fun (p : String × List (Nat × String)) =>
      p.2.findSome? (fun a =>
        if a.1 = 2 && !("127.".data.isPrefixOf a.2.data) then some a.2
        else none)
    match w.netIfAddrs.findSome? (fun p =>
        if subListOf "wi-fi".data (pyLower p.1).data ||
           subListOf "wlan".data (pyLower p.1).data then pick p
        else none) with
    | some ip => some ip
    | none => w.netIfAddrs.findSome? pick

/-- Embedding of `_wifi_info` (system_insights.py, lines 58-71): the
`netsh` subprocess outcome is unguarded, so its exception propagates. -/
def wifiInfo (w : InsightsWorld) : Except String (String × String) :=
  match w.netshRun with
  | .error e => .error e
  | .ok r =>
      if r.returncode != 0 then .ok ("Wi-Fi: n/a", "IP: n/a")
      else do
        let st ← (r.stdout.splitOn "\n").foldlM wifiLineFold ("", "")
        let ipStr := match primaryIp w with
          | some s => if s ≠ "" then s else "n/a"
          | none => "n/a"
        pure ("Wi-Fi: " ++ (if st.1 ≠ "" then st.1 else "n/a") ++ " (" ++
          (if st.2 ≠ "" then st.2 else "--") ++ ")", "IP: " ++ ipStr)

/-- Embedding of `_battery_info` (system_insights.py, lines 91-100): the
`psutil.sensors_battery()` call is unguarded here (unlike the
dashboard's `_sample_battery`), so its exception propagates. -/
def batteryInfo (w : InsightsWorld) : Except String String :=
  if !w.psutilAvail || !w.battAttrAvail then .ok "Battery: n/a"
  else
    match w.battery with
    | .error e => .error e
    | .ok none => .ok "Battery: not detected"
    | .ok (some (pct, plugged)) =>
        .ok ("Battery: " ++ fmt0f pct ++ "% (" ++
          (if plugged then "charging" else "discharging") ++ ")")

/-- Embedding of `_speedtest` (system_insights.py, lines 103-114): this
helper does guard its body, so every outcome yields a string. -/
def speedtestInfo (w : InsightsWorld) : String :=
  if !w.speedtestAvail then
    "Speedtest: install speedtest-cli to run (pip install speedtest-cli)"
  else
    match w.speed with
    | .error e => "Speedtest failed: " ++ e
    | .ok (down, up, ping) =>
        "Speedtest: ↓ " ++ fmt1f (down / 1000000) ++ " Mbps ↑ " ++
          fmt1f (up / 1000000) ++ " Mbps (ping " ++ fmt0f ping ++ " ms)"

/-- Embedding of `system_insights` (system_insights.py, lines 117-132),
in the source's evaluation order: CPU (total), GPU, Wi-Fi/IP, battery,
optional speed test. -/
def system_insights (run_speedtest : String) (w : InsightsWorld) :
    Except String String := do
  let gpu ← gpuInfo w
  let wip ← wifiInfo w
  let batt ← batteryInfo w
  let parts := [cpuInfo w, gpu, wip.1, wip.2, batt]
  let parts := if ["yes", "y", "true", "1", "run"].contains
      (pyLower (pyStrip run_speedtest)) then parts ++ [speedtestInfo w]
    else parts
  pure (String.intercalate "\n" parts)

/-- Amended C1: every tool converts the failures it guards into in-band
descriptive strings — `toggle_system_mute`, `open_app`,
`read_clipboard` and `write_clipboard` wrap their whole body and return
an identifiable `Error ...`/`... failed` string for every failure
outcome of their external calls; `find_file` handles an empty query
with a prompt string; `list_recent_downloads` reports a missing
Downloads folder; `todo_list` reports an empty or unreadable store;
`todo_complete` reports a non-numeric id; and `bambu_printer_status`
returns (never raises) the string `Failed to reach printer at <ip>:
<err>` when the HTTP fetch fails, e.g. on an unreachable printer IP.
The guards are not total, however: failures outside them propagate as
exceptions (see `tools_propagate_unguarded_failures`). -/
theorem tools_guarded_failures_return_strings :
    (∀ e, toggle_system_mute (.error e) = "Error toggling mute: " ++ e) ∧
    (∀ name pf pf86 ex e,
      open_app name pf pf86 ex (.error e) (.error e) =
        "Error opening " ++ name ++ ": " ++ e) ∧
    (∀ e, read_clipboard (.error e) = "Error reading clipboard: " ++ e) ∧
    (∀ r : RunResult, r.returncode ≠ 0 →
      read_clipboard (.ok r) =
        "Clipboard read failed: " ++ pyStrip r.stderr) ∧
    (∀ t e, write_clipboard t (.error e) = "Error writing clipboard: " ++ e) ∧
    (∀ q walk, pyLower (pyStrip q) = "" →
      find_file q walk = "Provide a file name or part of it.") ∧
    (∀ it, list_recent_downloads false it =
      .ok "Downloads folder not found.") ∧
    (todo_list none = .ok "No tasks yet.") ∧
    (∀ file tid w, parsePyInt (pyStrip tid) = none →
      todo_complete file tid w =
        .ok ("Provide a numeric task id.", file, false)) ∧
    (∀ pip ac ei ec e, pyStrip pip ≠ "" →
      bambu_printer_status pip ac ei ec (.error e) =
        .ok ("Failed to reach printer at " ++ pyStrip pip ++ ": " ++ e)) := by
  refine ⟨fun e => rfl, ?_, fun e => rfl, ?_, fun t e => rfl, ?_, fun it => rfl,
    rfl, ?_, ?_⟩
  · intro name pf pf86 ex e
    simp only [open_app]
    cases h : (appMap pf pf86).lookup (pyLower (pyStrip name)) with
    | none => simp
    | some t => by_cases ht : (!t.isEmpty && ex t) = true <;> simp [ht]
  · intro r h
    simp [read_clipboard, h]
  · intro q walk h
    simp [find_file, h]
  · intro file tid w h
    simp [todo_complete, h]
  · intro pip ac ei ec e h
    simp [bambu_printer_status, h]

/-- Closed witness for `tools_guarded_failures_return_strings`: an
unreachable printer IP yields the in-band failure string. -/
theorem tools_guarded_failures_return_strings_witness :
    bambu_printer_status "10.0.0.99" "" "" "" (.error "ConnectTimeout") =
      .ok "Failed to reach printer at 10.0.0.99: ConnectTimeout" := by
  have h := tools_guarded_failures_return_strings.2.2.2.2.2.2.2.2.2
    "10.0.0.99" "" "" "" "ConnectTimeout" (by decide)
  exact h

/-- Counterexample to C1 as stated: three tools propagate an exception
past their boundary.  `todo_add` re-raises a store-write failure
(`_save_tasks` / `TODO_PATH.write_text` is unguarded);
`system_insights` re-raises the `FileNotFoundError` of a missing
`nvidia-smi` binary (the `subprocess.run` in `_gpu_info` is unguarded);
and `bambu_printer_status` raises `AttributeError` when the
successfully fetched JSON is an array rather than the expected
object. -/
theorem tools_propagate_unguarded_failures :
    todo_add (some []) "x" 123 false =
      .error "OSError: failed to write to-do file" ∧
    system_insights "no"
      { psutilAvail := true, cpuLoad := 10, sensorsAttrAvail := false,
        temps := [], gpuRun := .error "FileNotFoundError: nvidia-smi",
        netshRun := .ok ⟨0, "", ""⟩, netIfAddrs := [],
        battAttrAvail := false, battery := .ok none,
        speedtestAvail := false, speed := .error "" } =
      .error "FileNotFoundError: nvidia-smi" ∧
    bambu_printer_status "1.2.3.4" "" "" "" (.ok (Json.arr [])) =
      .error "AttributeError: object has no attribute get" :=
  ⟨rfl, rfl, rfl⟩

